import Mathlib

set_option maxRecDepth 100000

/-!
# Verification of `healthcare_disease_analysis.py`

Shallow embedding of the verifiable core of the repository
`XanthiKoureli/Healthcare-Disease-Analysis`:

* `extract_number` — extracts the leading numeric value of a
  percentage-formatted string via `re.match(r'(\d+(\.\d+)?)%', value.strip())`;
* `display_disease_info` — `json.loads` of the remote response, dictionary
  accesses for the statistics / recovery / medication fields, the tab-inclusion
  rule, and the narrow `except json.JSONDecodeError` handler;
* the `@st.cache_data` memoisation of `get_disease_info`.

Python dynamic semantics is made explicit: dictionary/field accesses return
`Except PyExc` values, where `PyExc` covers the uncaught exceptions the code
can raise (`KeyError`, `AttributeError`, `TypeError`).  Python `float` results
are embedded as exact rationals `ℚ` (the decimal numerals occurring here are
taken at their exact mathematical value).  The regex class `\d` and `str.strip`
are modelled over ASCII, which covers all inputs the program's collaborators
produce.
-/

namespace Healthcare

/-- ASCII whitespace recognised by Python's `str.strip()` with no argument
(space, tab, newline, carriage return, vertical tab, form feed). -/
def isPySpace (c : Char) : Bool :=
  c = ' ' || c = '\t' || c = '\n' || c = '\x0d' || c = '\x0b' || c = '\x0c'

/-- Python `value.strip()`: remove leading and trailing whitespace. -/
def pyStrip (l : List Char) : List Char :=
  ((l.dropWhile isPySpace).reverse.dropWhile isPySpace).reverse

/-- Maximal run of decimal digits at the head of the list, with the rest
(the behaviour of the greedy `\d+` / `\d*` regex atoms). -/
def spanDigits : List Char → List Char × List Char
  | [] => ([], [])
  | c :: cs =>
    if c.isDigit then
      let r := spanDigits cs
      (c :: r.1, r.2)
    else ([], c :: cs)

/-- Numeric value of a digit string, most significant digit first. -/
def digitsToNat (l : List Char) : Nat :=
  l.foldl (fun n c => 10 * n + (c.toNat - 48)) 0

/-- Exact value of the decimal numeral `d1 . d2` (with `d2 = []` for a plain
integer numeral): this is the mathematical value that Python's
`float(match.group(1))` converts. -/
def decValue (d1 d2 : List Char) : ℚ :=
  (digitsToNat d1 : ℚ) + (digitsToNat d2 : ℚ) / 10 ^ d2.length

/-- The regex match `re.match(r'(\d+(\.\d+)?)%', ·)` on a list of characters: anchored at the
start, greedy digits, an optional fraction part, then a literal `%`; trailing
characters after the `%` are not inspected.  Returns the integer digits and
the optional fraction digits of group 1.

Greedy maximal-munch is complete for this pattern: a shorter `\d+` match would
leave a digit in front, which neither `\.` nor `%` can consume, so the regex
engine's backtracking never produces a match the maximal munch misses. -/
def pyMatchPercent (l : List Char) : Option (List Char × Option (List Char)) :=
  let s1 := spanDigits l
  if s1.1 = [] then none
  else
    match s1.2 with
    | '%' :: _ => some (s1.1, none)
    | '.' :: rest2 =>
      let s2 := spanDigits rest2
      if s2.1 = [] then none
      else
        match s2.2 with
        | '%' :: _ => some (s1.1, some s2.1)
        | _ => none
    | _ => none

/-- Function `extract_number` (src/healthcare_disease_analysis.py, lines 21–28):

    percentage_pattern = r'(\d+(\.\d+)?)%'
    match = re.match(percentage_pattern, value.strip())
    if match: return float(match.group(1))
    else: return None
-/
def extract_number (value : String) : Option ℚ :=
  match pyMatchPercent (pyStrip value.data) with
  | none => none
  | some (d1, none) => some (decValue d1 [])
  | some (d1, some d2) => some (decValue d1 d2)

/-- The characters contributed by the optional fraction group `(\.\d+)?`. -/
def fracChars : Option (List Char) → List Char
  | none => []
  | some d2 => '.' :: d2

/-- The pattern of the spec, `^\s*\d+(\.\d+)?%`, as a predicate on the input
string: after stripping, the string begins with one or more digits, optionally
a decimal point and one or more further digits, then a literal percent sign,
followed by arbitrary content. -/
def MatchesPercentPattern (s : String) : Prop :=
  ∃ (d1 : List Char) (frac : Option (List Char)) (rest : List Char),
    pyStrip s.data = d1 ++ fracChars frac ++ '%' :: rest
      ∧ d1 ≠ [] ∧ (∀ c ∈ d1, c.isDigit)
      ∧ ∀ d2, frac = some d2 → d2 ≠ [] ∧ ∀ c ∈ d2, c.isDigit

/-- Python values produced by `json.loads`: strings, numbers (JSON ints and
floats, embedded as exact rationals), booleans, `None`, lists, and dicts
(association lists in first-insertion order, as Python dicts preserve
insertion order). -/
inductive PyVal where
  | str (s : String)
  | num (q : ℚ)
  | bool (b : Bool)
  | null
  | list (xs : List PyVal)
  | dict (kvs : List (String × PyVal))

/-- The uncaught exceptions of Python that the displayed code can raise. -/
inductive PyExc where
  | keyError (k : String)
  | attributeError
  | typeError
  deriving DecidableEq

/-- First-match lookup in a dict's association list (the parser keeps keys
unique, so first match is the binding). -/
def dictFind : List (String × PyVal) → String → Option PyVal
  | [], _ => none
  | (k', v) :: rest, k => if k' = k then some v else dictFind rest k

/-- Binding a key in a dict: an existing key is updated in place (keeping its
insertion position, as Python dicts do), a new key is appended at the end. -/
def dictInsert : List (String × PyVal) → String → PyVal → List (String × PyVal)
  | [], k, v => [(k, v)]
  | (k', v') :: rest, k, v =>
    if k' = k then (k, v) :: rest else (k', v') :: dictInsert rest k v

/-- Python subscripting `obj[key]` with a string key: on a dict it is a
lookup raising `KeyError` when the key is absent; on any other value it
raises `TypeError`. -/
def getItem (v : PyVal) (k : String) : Except PyExc PyVal :=
  match v with
  | .dict kvs =>
    match dictFind kvs k with
    | some x => .ok x
    | none => .error (.keyError k)
  | _ => .error .typeError

/-- Function `extract_number` applied to an arbitrary Python value: the call
`value.strip()` raises `AttributeError` whenever `value` is not a string
(no other Python type of this model has a `strip` method); on a string the
function is total and never raises. -/
def extract_number_py : PyVal → Except PyExc (Option ℚ)
  | .str s => .ok (extract_number s)
  | _ => .error .attributeError

/-- JSON insignificant whitespace: space, tab, line feed, carriage return. -/
def isJsonWs (c : Char) : Bool :=
  c = ' ' || c = '\t' || c = '\n' || c = '\x0d'

def skipWs (l : List Char) : List Char := l.dropWhile isJsonWs

/-- Value of one hexadecimal digit, for `\uXXXX` escapes. -/
def hexVal (c : Char) : Option Nat :=
  if '0' ≤ c ∧ c ≤ '9' then some (c.toNat - 48)
  else if 'a' ≤ c ∧ c ≤ 'f' then some (c.toNat - 87)
  else if 'A' ≤ c ∧ c ≤ 'F' then some (c.toNat - 55)
  else none

/-- Body of a JSON string literal, positioned after the opening quote:
returns the decoded characters and the input after the closing quote.
Unescaped control characters and invalid escapes are rejected, as in
Python's strict `json.loads`.  (Escapes denoting UTF-16 surrogate halves
are rejected here; they cannot be represented as scalar values.) -/
def parseStringBody : Nat → List Char → Option (List Char × List Char)
  | 0, _ => none
  | _, [] => none
  | fuel + 1, c :: cs =>
    if c = '"' then some ([], cs)
    else if c = '\\' then
      match cs with
      | [] => none
      | e :: cs2 =>
        let esc : Option (Char × List Char) :=
          if e = '"' then some ('"', cs2)
          else if e = '\\' then some ('\\', cs2)
          else if e = '/' then some ('/', cs2)
          else if e = 'b' then some ('\x08', cs2)
          else if e = 'f' then some ('\x0c', cs2)
          else if e = 'n' then some ('\n', cs2)
          else if e = 'r' then some ('\x0d', cs2)
          else if e = 't' then some ('\t', cs2)
          else if e = 'u' then
            match cs2 with
            | h1 :: h2 :: h3 :: h4 :: cs3 =>
              match hexVal h1, hexVal h2, hexVal h3, hexVal h4 with
              | some a, some b, some c2, some d =>
                let n := ((a * 16 + b) * 16 + c2) * 16 + d
                if n < 0xd800 then some (Char.ofNat n, cs3) else none
              | _, _, _, _ => none
            | _ => none
          else none
        match esc with
        | none => none
        | some (ch, rest) =>
          match parseStringBody fuel rest with
          | none => none
          | some (content, rest2) => some (ch :: content, rest2)
    else if c.toNat < 0x20 then none
    else
      match parseStringBody fuel cs with
      | none => none
      | some (content, rest) => some (c :: content, rest)

/-- The optional fraction part `('.' digits)?` of a JSON number. -/
def parseJsonFrac (l : List Char) : Option (List Char × List Char) :=
  match l with
  | '.' :: r =>
    let s := spanDigits r
    if s.1 = [] then none else some (s.1, s.2)
  | _ => some ([], l)

/-- The optional exponent part `([eE] [+-]? digits)?` of a JSON number. -/
def parseJsonExp (l : List Char) : Option (Int × List Char) :=
  match l with
  | c :: rest =>
    if c = 'e' ∨ c = 'E' then
      let p : Int × List Char :=
        match rest with
        | '+' :: r => (1, r)
        | '-' :: r => (-1, r)
        | _ => (1, rest)
      let s := spanDigits p.2
      if s.1 = [] then none else some (p.1 * digitsToNat s.1, s.2)
    else some (0, l)
  | [] => some (0, [])

/-- A JSON number: optional minus, an integer part with no leading zeros,
optional fraction and exponent.  Its exact rational value (Python reads
ints exactly and floats as the nearest double; the documents here are
embedded at their exact values). -/
def parseJsonNumber (l : List Char) : Option (ℚ × List Char) :=
  let p : Bool × List Char := match l with | '-' :: r => (true, r) | _ => (false, l)
  let s1 := spanDigits p.2
  match s1.1 with
  | [] => none
  | d :: ds =>
    if d = '0' ∧ ds ≠ [] then none
    else
      match parseJsonFrac s1.2 with
      | none => none
      | some (fr, l2) =>
        match parseJsonExp l2 with
        | none => none
        | some (e, l3) =>
          let mag : ℚ := decValue (d :: ds) fr
          let mag2 : ℚ := if 0 ≤ e then mag * 10 ^ e.toNat else mag / 10 ^ (-e).toNat
          some (if p.1 then -mag2 else mag2, l3)

/-- Members of a JSON object, positioned right after the opening brace or a
comma; `pv` parses one value (the value parser one fuel level down), the
accumulator carries the bindings read so far.  A repeated key overwrites the
earlier binding, as in Python. -/
def parseMembersF (pv : List Char → Option (PyVal × List Char)) :
    Nat → List Char → List (String × PyVal) → Option (PyVal × List Char)
  | 0, _, _ => none
  | fuel + 1, l, acc =>
    match skipWs l with
    | '"' :: cs =>
      match parseStringBody (cs.length + 1) cs with
      | none => none
      | some (key, rest) =>
        match skipWs rest with
        | ':' :: rest2 =>
          match pv rest2 with
          | none => none
          | some (v, rest3) =>
            match skipWs rest3 with
            | ',' :: rest4 => parseMembersF pv fuel rest4 (dictInsert acc (String.mk key) v)
            | '\x7d' :: rest4 => some (.dict (dictInsert acc (String.mk key) v), rest4)
            | _ => none
        | _ => none
    | _ => none

/-- Elements of a JSON array, positioned right after the opening bracket or a
comma. -/
def parseElementsF (pv : List Char → Option (PyVal × List Char)) :
    Nat → List Char → List PyVal → Option (PyVal × List Char)
  | 0, _, _ => none
  | fuel + 1, l, acc =>
    match pv l with
    | none => none
    | some (v, rest) =>
      match skipWs rest with
      | ',' :: rest2 => parseElementsF pv fuel rest2 (acc ++ [v])
      | ']' :: rest2 => some (.list (acc ++ [v]), rest2)
      | _ => none

/-- One JSON value, preceded by optional whitespace: a string, object, array,
`true`/`false`/`null` literal, or number.  The fuel bounds the nesting
depth; `json_loads` supplies one unit per input character, which is ample
since every nesting level consumes at least one character. -/
def parseValue : Nat → List Char → Option (PyVal × List Char)
  | 0, _ => none
  | fuel + 1, l =>
    match skipWs l with
    | [] => none
    | c :: cs =>
      if c = '"' then
        match parseStringBody (cs.length + 1) cs with
        | none => none
        | some (content, rest) => some (.str (String.mk content), rest)
      else if c = '\x7b' then
        match skipWs cs with
        | '\x7d' :: rest => some (.dict [], rest)
        | _ => parseMembersF (parseValue fuel) (cs.length + 1) cs []
      else if c = '[' then
        match skipWs cs with
        | ']' :: rest => some (.list [], rest)
        | _ => parseElementsF (parseValue fuel) (cs.length + 1) cs []
      else if c = 't' then
        match cs with
        | 'r' :: 'u' :: 'e' :: rest => some (.bool true, rest)
        | _ => none
      else if c = 'f' then
        match cs with
        | 'a' :: 'l' :: 's' :: 'e' :: rest => some (.bool false, rest)
        | _ => none
      else if c = 'n' then
        match cs with
        | 'u' :: 'l' :: 'l' :: rest => some (.null, rest)
        | _ => none
      else
        match parseJsonNumber (c :: cs) with
        | none => none
        | some (q, rest) => some (.num q, rest)

/-- Python `json.loads` (the strict default decoder): parse one JSON document,
require the remaining input to be whitespace only; every failure is the one
`json.JSONDecodeError` condition, embedded as `Except.error ()`. -/
def json_loads (s : String) : Except Unit PyVal :=
  match parseValue (s.data.length + 1) s.data with
  | none => .error ()
  | some (v, rest) => if skipWs rest = [] then .ok v else .error ()

/-- The outcome of one rendered report: the tab list built by
`display_disease_info` and the two extracted rates (the observables the
claims speak about). -/
structure Rendered where
  tabs : List String
  recovery_rate : Option ℚ
  mortality_rate : Option ℚ
  deriving DecidableEq

/-- What `display_disease_info` does with its input: either the report is
rendered, or the `except json.JSONDecodeError` handler reports an error
message to the user (`st.error`). -/
inductive DisplayOutcome where
  | rendered (r : Rendered)
  | errorReported
  deriving DecidableEq

/-- Python iteration `for x in v`: dicts, lists and strings are iterable;
numbers, booleans and `None` raise `TypeError`. -/
def pyIterable : PyVal → Except PyExc Unit
  | .list _ => .ok ()
  | .str _ => .ok ()
  | .dict _ => .ok ()
  | _ => .error .typeError

/-- Python `d.items()`: the attribute exists only on dicts; on any other value the
access raises `AttributeError`. -/
def pyItems : PyVal → Except PyExc (List (String × PyVal))
  | .dict kvs => .ok kvs
  | _ => .error .attributeError

/-- Function `display_statistics` (lines 106–117): builds a DataFrame from the two
rates and draws a bar chart titled with `name`; pure rendering, raises
nothing (the f-string accepts any value for `name`). -/
def display_statistics (_recovery _mortality : Option ℚ) (_name : PyVal) :
    Except PyExc Unit := .ok ()

/-- Function `display_recovery_options` (lines 98–102): iterates
`recovery_options.items()` and renders each option; the only failure is the
`.items` attribute access on a non-dict. -/
def display_recovery_options (recovery_options : PyVal) : Except PyExc Unit :=
  match pyItems recovery_options with
  | .error e => .error e
  | .ok _ => .ok ()

/-- Function `display_medication` (lines 82–94): accesses `medication['name']`,
iterates `medication['side_effects']`, and accesses `medication['dosage']`. -/
def display_medication (medication : PyVal) : Except PyExc Unit :=
  match getItem medication "name" with
  | .error e => .error e
  | .ok _ =>
    match getItem medication "side_effects" with
    | .error e => .error e
    | .ok se =>
      match pyIterable se with
      | .error e => .error e
      | .ok _ =>
        match getItem medication "dosage" with
        | .error e => .error e
        | .ok _ => .ok ()

/-- The body of the tab loop of `display_disease_info` (lines 68–75) for one
tab name. -/
def renderTab (info : PyVal) (recovery_rate mortality_rate : Option ℚ)
    (tab_name : String) : Except PyExc Unit :=
  if tab_name = "Statistics" then
    match getItem info "name" with
    | .error e => .error e
    | .ok name => display_statistics recovery_rate mortality_rate name
  else if tab_name = "Recovery" then
    match getItem info "recovery_options" with
    | .error e => .error e
    | .ok ro => display_recovery_options ro
  else if tab_name = "Medication" then
    match getItem info "medication" with
    | .error e => .error e
    | .ok med => display_medication med
  else .ok ()

/-- The tab loop of `display_disease_info` (lines 68–75), run left to right. -/
def renderTabs (info : PyVal) (recovery_rate mortality_rate : Option ℚ) :
    List String → Except PyExc Unit
  | [] => .ok ()
  | t :: ts =>
    match renderTab info recovery_rate mortality_rate t with
    | .error e => .error e
    | .ok _ => renderTabs info recovery_rate mortality_rate ts

/-- The body of the `try` block of `display_disease_info` after `json.loads`
(lines 53–75): extract the two rates from `info['statistics']`, build the tab
list — `"Statistics"` is appended exactly when both rates are not `None`,
then `"Recovery"` and `"Medication"` always — and render each tab. -/
def processReport (info : PyVal) : Except PyExc Rendered :=
  match getItem info "statistics" with
  | .error e => .error e
  | .ok stats1 =>
    match getItem stats1 "recovery_rate" with
    | .error e => .error e
    | .ok rrv =>
      match extract_number_py rrv with
      | .error e => .error e
      | .ok recovery_rate =>
        match getItem info "statistics" with
        | .error e => .error e
        | .ok stats2 =>
          match getItem stats2 "mortality_rate" with
          | .error e => .error e
          | .ok mrv =>
            match extract_number_py mrv with
            | .error e => .error e
            | .ok mortality_rate =>
              let tabs := (if recovery_rate.isSome && mortality_rate.isSome
                then ["Statistics"] else []) ++ ["Recovery", "Medication"]
              match renderTabs info recovery_rate mortality_rate tabs with
              | .error e => .error e
              | .ok _ => .ok ⟨tabs, recovery_rate, mortality_rate⟩

/-- Function `display_disease_info` (lines 49–78): `json.loads` and the report
processing above run inside a `try` whose only handler is
`except json.JSONDecodeError` (which reports an error to the user,
outcome `errorReported`).  Every other exception escapes uncaught,
modelled by `Except.error`. -/
def display_disease_info (disease : String) : Except PyExc DisplayOutcome :=
  match json_loads disease with
  | .error _ => .ok .errorReported
  | .ok info =>
    match processReport info with
    | .error e => .error e
    | .ok r => .ok (.rendered r)

/-- Modelled from the spec: the `@st.cache_data` decorator on
`get_disease_info` (lines 32–45) — the memoisation itself lives in the
Streamlit framework, not in this repository.  The cache maps the exact
disease-name string to the raw response; a hit returns the stored value and
performs no remote call, a miss queries the remote collaborator (a pure
oracle here) and stores the result.  The `Nat` component counts the remote
calls performed by the invocation. -/
def get_disease_info (oracle : String → String)
    (cache : List (String × String)) (name : String) :
    String × List (String × String) × Nat :=
  match cache.lookup name with
  | some v => (v, cache, 0)
  | none => (oracle name, (name, oracle name) :: cache, 1)

/-- The spec's end-to-end input document for "Flu". -/
def fluDoc : String :=
  "\x7b\"name\":\"Flu\",\"statistics\":\x7b\"total_cases\":1000,\"recovery_rate\":\"95%\",\"mortality_rate\":\"0.1%\"\x7d,\"recovery_options\":\x7b\"Rest\":\"Stay hydrated and rest.\"\x7d,\"medication\":\x7b\"name\":\"Ibuprofen\",\"side_effects\":[\"Nausea\",\"Dizziness\"],\"dosage\":\"200mg every 6 hours\"\x7d\x7d"

/-- The same document with `"recovery_rate":"unknown"`. -/
def fluUnknownDoc : String :=
  "\x7b\"name\":\"Flu\",\"statistics\":\x7b\"total_cases\":1000,\"recovery_rate\":\"unknown\",\"mortality_rate\":\"0.1%\"\x7d,\"recovery_options\":\x7b\"Rest\":\"Stay hydrated and rest.\"\x7d,\"medication\":\x7b\"name\":\"Ibuprofen\",\"side_effects\":[\"Nausea\",\"Dizziness\"],\"dosage\":\"200mg every 6 hours\"\x7d\x7d"

/-- The same document with the `medication` key removed (syntactically valid
JSON missing a required key). -/
def fluNoMedicationDoc : String :=
  "\x7b\"name\":\"Flu\",\"statistics\":\x7b\"total_cases\":1000,\"recovery_rate\":\"95%\",\"mortality_rate\":\"0.1%\"\x7d,\"recovery_options\":\x7b\"Rest\":\"Stay hydrated and rest.\"\x7d\x7d"

/-- A truncated prefix of the Flu document (syntactically invalid JSON). -/
def fluTruncatedDoc : String :=
  "\x7b\"name\":\"Flu\",\"statistics\":\x7b\"total_cases\":1000"

lemma spanDigits_append (a : List Char) (c : Char) (r : List Char)
    (ha : ∀ x ∈ a, x.isDigit) (hc : ¬ c.isDigit = true) :
    spanDigits (a ++ c :: r) = (a, c :: r) := by
  induction a with
  | nil => simp [spanDigits, hc]
  | cons x xs ih =>
    have hx : x.isDigit := ha x (by simp)
    have ih' := ih (fun y hy => ha y (by simp [hy]))
    simp [spanDigits, hx, ih']

lemma spanDigits_eq_append (l : List Char) :
    (spanDigits l).1 ++ (spanDigits l).2 = l := by
  induction l with
  | nil => rfl
  | cons c cs ih => by_cases hc : c.isDigit <;> simp [spanDigits, hc, ih]

lemma spanDigits_digits (l : List Char) : ∀ c ∈ (spanDigits l).1, c.isDigit := by
  induction l with
  | nil => simp [spanDigits]
  | cons c cs ih =>
    by_cases hc : c.isDigit
    · simp only [spanDigits, hc, if_true]
      intro x hx
      rcases List.mem_cons.mp hx with rfl | hx'
      · exact hc
      · exact ih x hx'
    · simp [spanDigits, hc]

lemma pyMatchPercent_of_decomp (d1 : List Char) (frac : Option (List Char))
    (rest : List Char) (h1 : d1 ≠ []) (h1d : ∀ c ∈ d1, c.isDigit)
    (h2 : ∀ d2, frac = some d2 → d2 ≠ [] ∧ ∀ c ∈ d2, c.isDigit) :
    pyMatchPercent (d1 ++ fracChars frac ++ '%' :: rest) = some (d1, frac) := by
  cases frac with
  | none =>
    have hs : spanDigits (d1 ++ '%' :: rest) = (d1, '%' :: rest) :=
      spanDigits_append d1 '%' rest h1d (by decide)
    simp [pyMatchPercent, fracChars, hs, h1]
  | some d2 =>
    obtain ⟨h2ne, h2d⟩ := h2 d2 rfl
    have hs1 : spanDigits (d1 ++ '.' :: (d2 ++ '%' :: rest)) = (d1, '.' :: (d2 ++ '%' :: rest)) :=
      spanDigits_append d1 '.' (d2 ++ '%' :: rest) h1d (by decide)
    have hs2 : spanDigits (d2 ++ '%' :: rest) = (d2, '%' :: rest) :=
      spanDigits_append d2 '%' rest h2d (by decide)
    simp [pyMatchPercent, fracChars, hs1, hs2, h1, h2ne]

lemma matches_of_pyMatchPercent (l d1 : List Char) (frac : Option (List Char))
    (h : pyMatchPercent l = some (d1, frac)) :
    ∃ rest, l = d1 ++ fracChars frac ++ '%' :: rest
      ∧ d1 ≠ [] ∧ (∀ c ∈ d1, c.isDigit)
      ∧ ∀ d2, frac = some d2 → d2 ≠ [] ∧ ∀ c ∈ d2, c.isDigit := by
  have hl := spanDigits_eq_append l
  have hd := spanDigits_digits l
  simp only [pyMatchPercent] at h
  split at h
  · simp at h
  next hne =>
  split at h
  next r heq =>
    obtain ⟨rfl, rfl⟩ : d1 = (spanDigits l).1 ∧ frac = none := by
      have h' := h
      simp only [Option.some.injEq, Prod.mk.injEq] at h'
      exact ⟨h'.1.symm, h'.2.symm⟩
    refine ⟨r, ?_, hne, hd, by simp⟩
    rw [fracChars, List.append_nil, ← heq, hl]
  next c r2 heq =>
    have hl2 := spanDigits_eq_append r2
    have hd2 := spanDigits_digits r2
    split at h
    · simp at h
    next hne2 =>
    split at h
    next r heq2 =>
      obtain ⟨rfl, rfl⟩ : d1 = (spanDigits l).1 ∧ frac = some (spanDigits r2).1 := by
        have h' := h
        simp only [Option.some.injEq, Prod.mk.injEq] at h'
        exact ⟨h'.1.symm, h'.2.symm⟩
      refine ⟨r, ?_, hne, hd, ?_⟩
      · rw [fracChars]
        conv_lhs => rw [← hl, heq]
        conv_lhs => rw [← hl2, heq2]
        simp
      · intro d2 hd2'
        obtain rfl : (spanDigits r2).1 = d2 := by simpa using hd2'
        exact ⟨hne2, hd2⟩
    · simp at h
  · simp at h

lemma decValue_nonneg (d1 d2 : List Char) : 0 ≤ decValue d1 d2 := by
  unfold decValue
  positivity

/-- C1. For every string `s` that, after trimming, begins with digits,
optionally a decimal point and more digits, then a literal percent sign,
`extract_number s` returns the leading numeric amount (the exact value of the
decimal numeral formed by the matched digit groups) — e.g. `"23.5%"` yields
`23.5` and `"  100%"` yields `100.0`. -/
theorem extract_number_of_pattern (s : String) (d1 : List Char)
    (frac : Option (List Char)) (rest : List Char)
    (hdec : pyStrip s.data = d1 ++ fracChars frac ++ '%' :: rest)
    (h1 : d1 ≠ []) (h1d : ∀ c ∈ d1, c.isDigit)
    (h2 : ∀ d2, frac = some d2 → d2 ≠ [] ∧ ∀ c ∈ d2, c.isDigit) :
    extract_number s = some (decValue d1 (frac.getD [])) := by
  unfold extract_number
  rw [hdec, pyMatchPercent_of_decomp d1 frac rest h1 h1d h2]
  cases frac <;> rfl

/-- Witness for C1 at the spec's examples `"23.5%"` and `"  100%"`. -/
theorem extract_number_of_pattern_witness :
    (extract_number "23.5%" = some (decValue ['2', '3'] ['5'])
        ∧ decValue ['2', '3'] ['5'] = 47 / 2)
      ∧ extract_number "  100%" = some (decValue ['1', '0', '0'] [])
      ∧ decValue ['1', '0', '0'] [] = 100 := by
  refine ⟨⟨?_, by with_unfolding_all rfl⟩, ?_, by with_unfolding_all rfl⟩
  · exact extract_number_of_pattern "23.5%" ['2', '3'] (some ['5']) []
      (by decide) (by decide) (by decide)
      (fun d2 h => by cases h; exact ⟨by decide, by decide⟩)
  · exact extract_number_of_pattern "  100%" ['1', '0', '0'] none []
      (by decide) (by decide) (by decide) (fun d2 h => by cases h)

/-- C2. For every string not matching the percentage pattern,
`extract_number` returns `none` — never zero and never an exception (the
embedding `extract_number : String → Option ℚ` is a total function); in
particular `"N/A"`, `""`, `"abc%"` and `"%23"` all yield `none`. -/
theorem extract_number_no_match (s : String) (h : ¬ MatchesPercentPattern s) :
    extract_number s = none
      ∧ extract_number "N/A" = none ∧ extract_number "" = none
      ∧ extract_number "abc%" = none ∧ extract_number "%23" = none := by
  refine ⟨?_, by decide, by decide, by decide, by decide⟩
  cases he : pyMatchPercent (pyStrip s.data) with
  | none => unfold extract_number; rw [he]
  | some p =>
    obtain ⟨d1, frac⟩ := p
    obtain ⟨rest, hdec, h1, h1d, h2⟩ := matches_of_pyMatchPercent _ d1 frac he
    exact absurd ⟨d1, frac, rest, hdec, h1, h1d, h2⟩ h

/-- Witness for C2 at `"N/A"`: the pattern does not match, and the function
returns `none` on all four of the spec's examples. -/
theorem extract_number_no_match_witness :
    extract_number "N/A" = none
      ∧ extract_number "N/A" = none ∧ extract_number "" = none
      ∧ extract_number "abc%" = none ∧ extract_number "%23" = none := by
  refine extract_number_no_match "N/A" ?_
  rintro ⟨d1, frac, rest, hdec, h1, h1d, h2⟩
  have e : pyStrip "N/A".data = ['N', '/', 'A'] := by decide
  rw [e] at hdec
  cases d1 with
  | nil => exact h1 rfl
  | cons c cs =>
    simp only [List.cons_append, List.append_assoc] at hdec
    injection hdec with hc _
    have := h1d c (by simp)
    rw [← hc] at this
    exact absurd this (by decide)

/-- C6. Matching is anchored at the start of the trimmed input: the result
does not depend on the content after the percent sign (two inputs whose
trimmed forms agree up to and including the `%` give the same result), e.g.
`extract_number "50% approx" = some 50`, while a string whose trimmed form
does not begin with the pattern, such as `"about 50%"`, yields `none`. -/
theorem extract_number_anchored (s s' : String) (d1 : List Char)
    (frac : Option (List Char)) (rest rest' : List Char)
    (hdec : pyStrip s.data = d1 ++ fracChars frac ++ '%' :: rest)
    (hdec' : pyStrip s'.data = d1 ++ fracChars frac ++ '%' :: rest')
    (h1 : d1 ≠ []) (h1d : ∀ c ∈ d1, c.isDigit)
    (h2 : ∀ d2, frac = some d2 → d2 ≠ [] ∧ ∀ c ∈ d2, c.isDigit) :
    extract_number s = extract_number s'
      ∧ extract_number "50% approx" = some 50
      ∧ extract_number "about 50%" = none := by
  refine ⟨?_, by with_unfolding_all rfl, by decide⟩
  unfold extract_number
  rw [hdec, hdec', pyMatchPercent_of_decomp d1 frac rest h1 h1d h2,
    pyMatchPercent_of_decomp d1 frac rest' h1 h1d h2]

/-- Witness for C6: `"50% approx"` and `"50%"` agree (trailing content after
the `%` is ignored). -/
theorem extract_number_anchored_witness :
    extract_number "50% approx" = extract_number "50%"
      ∧ extract_number "50% approx" = some 50
      ∧ extract_number "about 50%" = none :=
  extract_number_anchored "50% approx" "50%" ['5', '0'] none
    [' ', 'a', 'p', 'p', 'r', 'o', 'x'] []
    (by decide) (by decide) (by decide) (by decide) (fun d2 h => by cases h)

/-- C9. Every numeric value returned by `extract_number` is nonnegative
(the pattern admits no sign): a negative-formatted input such as `"-5%"`
yields `none`, while no upper bound is enforced — `"500%"` yields `500`. -/
theorem extract_number_nonneg (s : String) (q : ℚ)
    (h : extract_number s = some q) :
    0 ≤ q ∧ extract_number "-5%" = none ∧ extract_number "500%" = some 500 := by
  refine ⟨?_, by decide, by with_unfolding_all rfl⟩
  unfold extract_number at h
  rcases he : pyMatchPercent (pyStrip s.data) with _ | ⟨d1, _ | d2⟩ <;>
    rw [he] at h <;> simp at h
  · exact h ▸ decValue_nonneg d1 []
  · exact h ▸ decValue_nonneg d1 d2

/-- Witness for C9 at `"500%"`. -/
theorem extract_number_nonneg_witness :
    0 ≤ (500 : ℚ) ∧ extract_number "-5%" = none
      ∧ extract_number "500%" = some 500 :=
  extract_number_nonneg "500%" 500 (by with_unfolding_all rfl)

lemma processReport_ok_tabs (info : PyVal) (r : Rendered)
    (h : processReport info = .ok r) :
    r.tabs = (if r.recovery_rate.isSome && r.mortality_rate.isSome
      then ["Statistics"] else []) ++ ["Recovery", "Medication"] := by
  unfold processReport at h
  cases h1 : getItem info "statistics" with
  | error e => simp only [h1] at h; exact Except.noConfusion h
  | ok stats1 =>
  simp only [h1] at h
  cases h2 : getItem stats1 "recovery_rate" with
  | error e => simp only [h2] at h; exact Except.noConfusion h
  | ok rrv =>
  simp only [h2] at h
  cases h3 : extract_number_py rrv with
  | error e => simp only [h3] at h; exact Except.noConfusion h
  | ok recovery_rate =>
  simp only [h3] at h
  cases h4 : getItem stats1 "mortality_rate" with
  | error e => simp only [h4] at h; exact Except.noConfusion h
  | ok mrv =>
  simp only [h4] at h
  cases h5 : extract_number_py mrv with
  | error e => simp only [h5] at h; exact Except.noConfusion h
  | ok mortality_rate =>
  simp only [h5] at h
  cases h6 : renderTabs info recovery_rate mortality_rate
      ((if recovery_rate.isSome && mortality_rate.isSome
        then ["Statistics"] else []) ++ ["Recovery", "Medication"]) with
  | error e => simp only [h6] at h; exact Except.noConfusion h
  | ok u =>
  simp only [h6] at h
  obtain rfl : Rendered.mk ((if recovery_rate.isSome && mortality_rate.isSome
      then ["Statistics"] else []) ++ ["Recovery", "Medication"])
      recovery_rate mortality_rate = r := Except.ok.inj h
  simp

/-- C4. For every string on which JSON parsing fails (the
`json.JSONDecodeError` condition, the spec's `ParseError::MalformedDocument`),
`display_disease_info` reports the error to the caller and renders no
partial report. -/
theorem display_malformed_reports_error (s : String)
    (h : json_loads s = .error ()) :
    display_disease_info s = .ok .errorReported
      ∧ ∀ r : Rendered, display_disease_info s ≠ .ok (.rendered r) := by
  have hd : display_disease_info s = .ok .errorReported := by
    unfold display_disease_info
    rw [h]
  refine ⟨hd, fun r hr => ?_⟩
  rw [hd] at hr
  exact DisplayOutcome.noConfusion (Except.ok.inj hr)

/-- Witness for C4 at a truncated prefix of the Flu document. -/
theorem display_malformed_reports_error_witness :
    display_disease_info fluTruncatedDoc = .ok .errorReported
      ∧ ∀ r : Rendered, display_disease_info fluTruncatedDoc ≠ .ok (.rendered r) :=
  display_malformed_reports_error fluTruncatedDoc (by with_unfolding_all rfl)

/-- Counterexample to C3 as stated: on the syntactically valid document
missing the `medication` key the code does not catch and report a
missing-field error — it raises an uncaught `KeyError` (only
`json.JSONDecodeError` is handled by the `try`). -/
theorem display_missing_field_uncaught :
    display_disease_info fluNoMedicationDoc = .error (.keyError "medication")
      ∧ display_disease_info fluNoMedicationDoc ≠ .ok .errorReported := by
  have h : display_disease_info fluNoMedicationDoc
      = .error (.keyError "medication") := by
    with_unfolding_all rfl
  refine ⟨h, fun hc => ?_⟩
  rw [h] at hc
  exact Except.noConfusion hc

/-- C3 (amended). On syntactically valid JSON lacking the `medication`
key (but otherwise shaped like the expected report), the missing-field
condition is an uncaught `KeyError` propagated to the caller — it is not
caught and reported, since the code handles only `json.JSONDecodeError`. -/
theorem display_missing_medication_raises (s : String)
    (kvs stat ro : List (String × PyVal)) (a b : String) (nm : PyVal)
    (hparse : json_loads s = .ok (.dict kvs))
    (hname : dictFind kvs "name" = some nm)
    (hstat : dictFind kvs "statistics" = some (.dict stat))
    (hrr : dictFind stat "recovery_rate" = some (.str a))
    (hmr : dictFind stat "mortality_rate" = some (.str b))
    (hro : dictFind kvs "recovery_options" = some (.dict ro))
    (hmed : dictFind kvs "medication" = none) :
    display_disease_info s = .error (.keyError "medication") := by
  unfold display_disease_info
  rw [hparse]
  unfold processReport
  simp only [getItem, hstat, hrr, hmr, extract_number_py]
  cases hea : extract_number a <;> cases heb : extract_number b <;>
    simp [renderTabs, renderTab, getItem, hname, hstat, hro, hmed,
      display_statistics, display_recovery_options, pyItems]

/-- Witness for the amended C3 at the concrete no-medication document. -/
theorem display_missing_medication_raises_witness :
    display_disease_info fluNoMedicationDoc = .error (.keyError "medication") :=
  display_missing_medication_raises fluNoMedicationDoc
    [("name", .str "Flu"),
     ("statistics", .dict [("total_cases", .num 1000),
       ("recovery_rate", .str "95%"), ("mortality_rate", .str "0.1%")]),
     ("recovery_options", .dict [("Rest", .str "Stay hydrated and rest.")])]
    [("total_cases", .num 1000), ("recovery_rate", .str "95%"),
     ("mortality_rate", .str "0.1%")]
    [("Rest", .str "Stay hydrated and rest.")]
    "95%" "0.1%" (.str "Flu")
    (by with_unfolding_all rfl) (by with_unfolding_all rfl)
    (by with_unfolding_all rfl) (by with_unfolding_all rfl)
    (by with_unfolding_all rfl) (by with_unfolding_all rfl)
    (by with_unfolding_all rfl)

/-- C5. For every successfully rendered report, the `"Statistics"` tab
is in the tab list exactly when both extracted rates are numeric; and the
document with `"recovery_rate":"unknown"` still parses and renders, with the
recovery numeric absent and the Statistics tab omitted. -/
theorem statistics_tab_iff (s : String) (r : Rendered)
    (h : display_disease_info s = .ok (.rendered r)) :
    ("Statistics" ∈ r.tabs
        ↔ r.recovery_rate ≠ none ∧ r.mortality_rate ≠ none)
      ∧ display_disease_info fluUnknownDoc
          = .ok (.rendered ⟨["Recovery", "Medication"], none, some (1/10)⟩) := by
  refine ⟨?_, by with_unfolding_all rfl⟩
  obtain ⟨info, hp⟩ : ∃ info, processReport info = .ok r := by
    unfold display_disease_info at h
    cases hj : json_loads s with
    | error e =>
      simp only [hj] at h
      exact absurd (Except.ok.inj h) (by simp)
    | ok info =>
      simp only [hj] at h
      cases hq : processReport info with
      | error e => simp only [hq] at h; exact Except.noConfusion h
      | ok r0 =>
        simp only [hq] at h
        obtain rfl : r0 = r := by
          have := Except.ok.inj h
          exact DisplayOutcome.rendered.inj this
        exact ⟨info, hq⟩
  have ht := processReport_ok_tabs info r hp
  rw [ht]
  cases hrr : r.recovery_rate <;> cases hmr : r.mortality_rate <;>
    simp [hrr, hmr]

/-- Witness for C5 at the `"recovery_rate":"unknown"` document. -/
theorem statistics_tab_iff_witness :
    ("Statistics" ∈ (Rendered.mk ["Recovery", "Medication"] none (some (1/10))).tabs
        ↔ (Rendered.mk ["Recovery", "Medication"] none (some (1/10))).recovery_rate ≠ none
          ∧ (Rendered.mk ["Recovery", "Medication"] none (some (1/10))).mortality_rate ≠ none)
      ∧ display_disease_info fluUnknownDoc
          = .ok (.rendered ⟨["Recovery", "Medication"], none, some (1/10)⟩) :=
  statistics_tab_iff fluUnknownDoc ⟨["Recovery", "Medication"], none, some (1/10)⟩
    (by with_unfolding_all rfl)

/-- C7. On the spec's well-formed input document for "Flu", parsing
succeeds and produces derived recovery numeric `95.0`, derived mortality
numeric `0.1` (the exact rational `1/10`), and a tab list containing
`"Statistics"`. -/
theorem flu_document_end_to_end :
    display_disease_info fluDoc
        = .ok (.rendered ⟨["Statistics", "Recovery", "Medication"],
            some 95, some (1/10)⟩)
      ∧ "Statistics" ∈ ["Statistics", "Recovery", "Medication"] := by
  exact ⟨by with_unfolding_all rfl, by simp⟩

/-- C8. Querying `get_disease_info` twice with the same name string:
the second call returns a value equal to the first call's output and
performs zero remote calls to the text-generation collaborator — the result
cache is keyed by the input string. -/
theorem get_disease_info_cached (oracle : String → String)
    (cache : List (String × String)) (name : String) :
    (get_disease_info oracle (get_disease_info oracle cache name).2.1 name).1
        = (get_disease_info oracle cache name).1
      ∧ (get_disease_info oracle (get_disease_info oracle cache name).2.1 name).2.2
        = 0 := by
  unfold get_disease_info
  cases hl : cache.lookup name with
  | some v => simp [hl]
  | none => simp [hl, List.lookup]

/-- C10. The totality of `extract_number` holds only for string inputs:
on a non-string Python value such as the JSON number `95` (a rate field
returned as `95` rather than `"95%"`), the call `value.strip()` raises an
uncaught `AttributeError` instead of returning the no-value result, while on
every string the function returns without raising. -/
theorem extract_number_py_non_string_raises :
    extract_number_py (.num 95) = .error .attributeError
      ∧ ∀ s : String, extract_number_py (.str s) = .ok (extract_number s) :=
  ⟨rfl, fun _ => rfl⟩

end Healthcare

